import Mathlib

/-!
Verification of the transactional response-coordination middleware
(`transaction.go` / `middleware.go` of sinnott74/go-http-middleware).

The Go source is shallowly embedded as pure Lean functions:

* `StatusWriter` models the `statusWriter` struct.  Its `status` and `buf`
  fields mirror the Go fields; the extra `rw` field is the trace of calls the
  wrapper makes on the *underlying* `http.ResponseWriter` (`WriteHeader` and
  `Write` calls only — the `Header()` accessor is a documented pass-through
  of the underlying header map and does not participate in the buffered
  status/body protocol, so it is not part of the trace).
* `StatusWriter.WriteHeader`, `StatusWriter.Write`, `StatusWriter.Finish`
  are the three methods, translated line by line from the source.
* A handler is modelled as the sequence of writer calls it performs
  (`HAction` list) followed by either a normal return or a panic
  (`Handler.panics`).  This covers every interaction a wrapped handler can
  have with the capture.
* The database is modelled by whether `BeginTx` succeeds and whether
  `Commit` succeeds (`DBBehavior`); `Rollback` errors are ignored by the
  source, so their outcome needs no model.
* `Transaction` is the orchestration procedure: the body of the
  `http.HandlerFunc` returned by `Transaction(db)` in the source, with the
  deferred recovery block translated into the if-cascade it performs.
  Besides the trace on the underlying writer it records the sequence of
  transaction lifecycle calls (`TxEvent`) and how often the wrapped handler
  was invoked.
* `Ctx`, `setTransaction`, `GetTransaction` model the context round-trip;
  a Go panic from the failed type assertion is modelled as `Except.error`.
-/

namespace GoHTTPMiddleware

/-- Body bytes, as the list of byte values written. -/
abbrev Bytes := List Nat

/-- Calls forwarded to the underlying `http.ResponseWriter`. -/
inductive RWEvent where
  | header (code : Int)
  | write (bytes : Bytes)
deriving DecidableEq

/-- State of the `statusWriter` wrapper together with the trace of calls it
has made on the underlying writer (`rw`). -/
structure StatusWriter where
  status : Int
  buf : Bytes
  rw : List RWEvent
deriving DecidableEq

/-- The writer a request starts with: status unset (0), empty buffer,
nothing sent to the underlying writer. -/
def initialWriter : StatusWriter := { status := 0, buf := [], rw := [] }

/-- Source `statusWriter.WriteHeader`: records the status, forwards nothing. -/
def StatusWriter.WriteHeader (sw : StatusWriter) (status : Int) : StatusWriter :=
  { sw with status := status }

/-- Source `statusWriter.Write`: sets the status to 200 if still unset, then
appends to the internal buffer; forwards nothing. -/
def StatusWriter.Write (sw : StatusWriter) (b : Bytes) : StatusWriter :=
  { sw with
    status := if sw.status = 0 then 200 else sw.status
    buf := sw.buf ++ b }

/-- Source `statusWriter.Finish`: if a status was recorded, forward it with
`rw.WriteHeader`, then forward the buffered bytes with `rw.Write` —
unconditionally, even when the buffer is empty. -/
def StatusWriter.Finish (sw : StatusWriter) : StatusWriter :=
  { sw with
    rw := sw.rw ++ (if sw.status = 0 then [] else [RWEvent.header sw.status])
          ++ [RWEvent.write sw.buf] }

/-- Source `isHTTPStatusOk` (middleware.go): 2xx check. -/
def isHTTPStatusOk (status : Int) : Bool :=
  decide (status ≥ 200 ∧ status < 300)

/-- One call a wrapped handler makes on its `http.ResponseWriter`. -/
inductive HAction where
  | writeHeader (status : Int)
  | write (b : Bytes)
deriving DecidableEq

/-- Run a sequence of handler calls against the capture. -/
def runActions : List HAction → StatusWriter → StatusWriter
  | [], sw => sw
  | HAction.writeHeader s :: rest, sw => runActions rest (sw.WriteHeader s)
  | HAction.write b :: rest, sw => runActions rest (sw.Write b)

/-- A wrapped handler: the writer calls it performs, and whether it then
panics instead of returning normally (the calls are those made before the
panic). -/
structure Handler where
  actions : List HAction
  panics : Bool
deriving DecidableEq

/-- The capture state at the moment the handler terminates. -/
def capturedState (h : Handler) : StatusWriter :=
  runActions h.actions initialWriter

/-- Database behaviour relevant to the coordinator: does `BeginTx` succeed,
does `Commit` succeed. -/
structure DBBehavior where
  beginOk : Bool
  commitOk : Bool
deriving DecidableEq

/-- Transaction lifecycle calls issued by the coordinator. -/
inductive TxEvent where
  | txBegin
  | commit
  | rollback
deriving DecidableEq

/-- Number of occurrences of a lifecycle call in a trace. -/
def countTx (e : TxEvent) : List TxEvent → Nat
  | [] => 0
  | x :: rest => (if x = e then 1 else 0) + countTx e rest

/-- Observable outcome of one request: trace on the underlying writer,
trace of transaction lifecycle calls, number of handler invocations. -/
structure Outcome where
  rw : List RWEvent
  txEvents : List TxEvent
  handlerInvocations : Nat
deriving DecidableEq

/-- The orchestration procedure of `Transaction(db)` (transaction.go):
begin; on begin failure write 500 and finish without running the handler;
otherwise run the handler and execute the deferred block, which recovers a
panic (rollback, overwrite 500, finish), rolls back on a non-2xx captured
status (finish as captured), attempts commit on a 2xx status and on commit
failure rolls back, overwrites 500 and finishes, else finishes as captured. -/
def Transaction (db : DBBehavior) (h : Handler) : Outcome :=
  if db.beginOk = false then
    { rw := (StatusWriter.Finish (StatusWriter.WriteHeader initialWriter 500)).rw
      txEvents := []
      handlerInvocations := 0 }
  else if h.panics = true then
    { rw := (StatusWriter.Finish (StatusWriter.WriteHeader (capturedState h) 500)).rw
      txEvents := [TxEvent.txBegin, TxEvent.rollback]
      handlerInvocations := 1 }
  else if isHTTPStatusOk (capturedState h).status = false then
    { rw := (StatusWriter.Finish (capturedState h)).rw
      txEvents := [TxEvent.txBegin, TxEvent.rollback]
      handlerInvocations := 1 }
  else if db.commitOk = false then
    { rw := (StatusWriter.Finish (StatusWriter.WriteHeader (capturedState h) 500)).rw
      txEvents := [TxEvent.txBegin, TxEvent.commit, TxEvent.rollback]
      handlerInvocations := 1 }
  else
    { rw := (StatusWriter.Finish (capturedState h)).rw
      txEvents := [TxEvent.txBegin, TxEvent.commit]
      handlerInvocations := 1 }

/-- Client-visible status of a trace on the underlying writer, per the
net/http contract: the first `WriteHeader` wins; a `Write` before any
`WriteHeader` implicitly sends 200; an empty trace sends nothing. -/
def visibleStatus : List RWEvent → Option Int
  | [] => none
  | RWEvent.header c :: _ => some c
  | RWEvent.write _ :: _ => some 200

/-- Client-visible body of a trace on the underlying writer: the
concatenation of all forwarded writes. -/
def visibleBody : List RWEvent → Bytes
  | [] => []
  | RWEvent.header _ :: rest => visibleBody rest
  | RWEvent.write b :: rest => b ++ visibleBody rest

/-- Values storable in a request context: a transaction handle (handles
identified by a number) or some unrelated value. -/
inductive CtxVal where
  | tx (t : Nat)
  | other (n : Nat)
deriving DecidableEq

/-- A request context: a chain of `context.WithValue` wrappers over a root.
Keys are identified by number, mirroring pointer identity of the private
`contextKey` values. -/
inductive Ctx where
  | background
  | withValue (parent : Ctx) (key : Nat) (val : CtxVal)
deriving DecidableEq

/-- Source `ctx.Value(key)`: nearest enclosing binding for the key, `none`
when the key is absent (Go returns nil). -/
def Ctx.value : Ctx → Nat → Option CtxVal
  | Ctx.background, _ => none
  | Ctx.withValue parent k v, key => if key = k then some v else parent.value key

/-- The private package-level key `txKey` (pointer identity). -/
def txKey : Nat := 0

/-- Source `setTransaction`: child context binding the handle under `txKey`. -/
def setTransaction (ctx : Ctx) (t : Nat) : Ctx :=
  Ctx.withValue ctx txKey (CtxVal.tx t)

/-- Source `GetTransaction`: `ctx.Value(txKey).(*sql.Tx)`.  The unchecked
type assertion panics when the key is absent (nil value) or bound to a
non-transaction value; a panic is modelled as `Except.error`. -/
def GetTransaction (ctx : Ctx) : Except String Nat :=
  match ctx.value txKey with
  | some (CtxVal.tx t) => Except.ok t
  | some (CtxVal.other _) => Except.error "panic: interface conversion"
  | none => Except.error "panic: interface conversion: interface is nil"

/-- Handler calls on the capture never touch the underlying writer: the
forwarded-call trace is unchanged by any action sequence. -/
theorem runActions_rw (acts : List HAction) (sw : StatusWriter) :
    (runActions acts sw).rw = sw.rw := by
  induction acts generalizing sw with
  | nil => rfl
  | cons a rest ih =>
    cases a <;> simp [runActions, StatusWriter.WriteHeader, StatusWriter.Write, ih]

/-- The captured state of any handler has an empty forwarded-call trace. -/
theorem capturedState_rw (h : Handler) : (capturedState h).rw = [] := by
  simp [capturedState, runActions_rw, initialWriter]

/-- A 2xx status is in particular non-zero. -/
theorem isHTTPStatusOk_ne_zero (s : Int) (hs : isHTTPStatusOk s = true) : s ≠ 0 := by
  simp [isHTTPStatusOk] at hs
  omega

/-- C4: with begin and commit succeeding, no panic, and a 2xx last-recorded
status, the trace on the underlying writer is exactly the captured status
followed by the captured body, the client sees exactly those, and commit is
issued exactly once. -/
theorem transaction_success_commit_flushes_captured
    (db : DBBehavior) (h : Handler)
    (hb : db.beginOk = true) (hp : h.panics = false)
    (hs : isHTTPStatusOk (capturedState h).status = true)
    (hc : db.commitOk = true) :
    (Transaction db h).rw =
      [RWEvent.header (capturedState h).status, RWEvent.write (capturedState h).buf] ∧
    visibleStatus (Transaction db h).rw = some (capturedState h).status ∧
    visibleBody (Transaction db h).rw = (capturedState h).buf ∧
    (Transaction db h).txEvents = [TxEvent.txBegin, TxEvent.commit] ∧
    countTx TxEvent.commit (Transaction db h).txEvents = 1 := by
  have hne := isHTTPStatusOk_ne_zero _ hs
  simp [Transaction, hb, hp, hs, hc, StatusWriter.Finish, capturedState_rw, hne,
    visibleStatus, visibleBody, countTx]

/-- C4 witness: a handler that sets 201 and writes one byte, against a
database where begin and commit succeed. -/
theorem transaction_success_commit_flushes_captured_witness :
    (Transaction ⟨true, true⟩ ⟨[HAction.writeHeader 201, HAction.write [42]], false⟩).rw =
      [RWEvent.header 201, RWEvent.write [42]] ∧
    countTx TxEvent.commit
      (Transaction ⟨true, true⟩ ⟨[HAction.writeHeader 201, HAction.write [42]], false⟩).txEvents
      = 1 := by
  have h := transaction_success_commit_flushes_captured ⟨true, true⟩
    ⟨[HAction.writeHeader 201, HAction.write [42]], false⟩ rfl rfl (by decide) rfl
  exact ⟨h.1, h.2.2.2.2⟩

/-- C5: with a non-2xx last-recorded status and a normal return, the unit of
work is rolled back, commit is never issued, and the flushed trace is
exactly the flush of the captured state — nothing overwritten. -/
theorem transaction_nonsuccess_rolls_back_preserves_response
    (db : DBBehavior) (h : Handler)
    (hb : db.beginOk = true) (hp : h.panics = false)
    (hs : isHTTPStatusOk (capturedState h).status = false) :
    (Transaction db h).txEvents = [TxEvent.txBegin, TxEvent.rollback] ∧
    countTx TxEvent.commit (Transaction db h).txEvents = 0 ∧
    (Transaction db h).rw = (StatusWriter.Finish (capturedState h)).rw ∧
    ((capturedState h).status ≠ 0 →
      visibleStatus (Transaction db h).rw = some (capturedState h).status ∧
      visibleBody (Transaction db h).rw = (capturedState h).buf) := by
  refine ⟨?_, ?_, ?_, ?_⟩ <;>
    simp [Transaction, hb, hp, hs, countTx]
  intro hne
  simp [StatusWriter.Finish, capturedState_rw, hne, visibleStatus, visibleBody]

/-- C5 witness: a handler that sets 503 and writes one byte. -/
theorem transaction_nonsuccess_rolls_back_preserves_response_witness :
    (Transaction ⟨true, true⟩ ⟨[HAction.writeHeader 503, HAction.write [9]], false⟩).txEvents
      = [TxEvent.txBegin, TxEvent.rollback] ∧
    visibleStatus
      (Transaction ⟨true, true⟩ ⟨[HAction.writeHeader 503, HAction.write [9]], false⟩).rw
      = some 503 := by
  have h := transaction_nonsuccess_rolls_back_preserves_response ⟨true, true⟩
    ⟨[HAction.writeHeader 503, HAction.write [9]], false⟩ rfl rfl (by decide)
  exact ⟨h.1, (h.2.2.2 (by decide)).1⟩

/-- C1 counterexample: the handler writes bytes 104,105 (implicit 200) and
commit fails; the client receives status 500 together with the handler's
buffered body — the body is not discarded, refuting the claim that the
client receives none of the handler's body bytes. -/
theorem transaction_commit_failure_body_not_discarded_cex :
    visibleStatus (Transaction ⟨true, false⟩ ⟨[HAction.write [104, 105]], false⟩).rw
      = some 500 ∧
    visibleBody (Transaction ⟨true, false⟩ ⟨[HAction.write [104, 105]], false⟩).rw
      = [104, 105] ∧
    ([104, 105] : Bytes) ≠ [] := by decide

/-- C1 amended: on commit failure after a 2xx status, the coordinator rolls
back, overwrites the captured status to 500, and flushes with the original
buffered body retained: the client receives a 500 response whose body is
exactly the bytes the handler buffered. -/
theorem transaction_commit_failure_overwrites_status_keeps_body
    (db : DBBehavior) (h : Handler)
    (hb : db.beginOk = true) (hp : h.panics = false)
    (hs : isHTTPStatusOk (capturedState h).status = true)
    (hc : db.commitOk = false) :
    (Transaction db h).txEvents = [TxEvent.txBegin, TxEvent.commit, TxEvent.rollback] ∧
    (Transaction db h).rw = [RWEvent.header 500, RWEvent.write (capturedState h).buf] ∧
    visibleStatus (Transaction db h).rw = some 500 ∧
    visibleBody (Transaction db h).rw = (capturedState h).buf := by
  simp [Transaction, hb, hp, hs, hc, StatusWriter.Finish, StatusWriter.WriteHeader,
    capturedState_rw, visibleStatus, visibleBody]

/-- C1 amended witness: handler sets 200 and writes one byte; commit fails. -/
theorem transaction_commit_failure_overwrites_status_keeps_body_witness :
    (Transaction ⟨true, false⟩ ⟨[HAction.writeHeader 200, HAction.write [3]], false⟩).txEvents
      = [TxEvent.txBegin, TxEvent.commit, TxEvent.rollback] ∧
    visibleStatus
      (Transaction ⟨true, false⟩ ⟨[HAction.writeHeader 200, HAction.write [3]], false⟩).rw
      = some 500 ∧
    visibleBody
      (Transaction ⟨true, false⟩ ⟨[HAction.writeHeader 200, HAction.write [3]], false⟩).rw
      = [3] := by
  have h := transaction_commit_failure_overwrites_status_keeps_body ⟨true, false⟩
    ⟨[HAction.writeHeader 200, HAction.write [3]], false⟩ rfl rfl (by decide) rfl
  exact ⟨h.1, h.2.2.1, h.2.2.2⟩

/-- C2 counterexample: two panicking handlers that buffered different bytes
produce 500 responses carrying exactly those bytes — the body after a panic
is neither empty nor a fixed constant, refuting the claim. -/
theorem transaction_panic_body_not_empty_cex :
    visibleBody (Transaction ⟨true, true⟩ ⟨[HAction.write [1]], true⟩).rw = [1] ∧
    visibleBody (Transaction ⟨true, true⟩ ⟨[HAction.write [2]], true⟩).rw = [2] ∧
    ([1] : Bytes) ≠ [] ∧ ([1] : Bytes) ≠ [2] := by decide

/-- C2 amended: a panic is recovered (the coordinator still produces an
outcome), the unit of work is rolled back and never committed, and the
client-visible status is 500 regardless of any status the handler recorded —
but the body is the bytes the handler buffered before panicking, forwarded
unchanged rather than emptied. -/
theorem transaction_panic_recovered_rollback_500
    (db : DBBehavior) (h : Handler)
    (hb : db.beginOk = true) (hp : h.panics = true) :
    (Transaction db h).txEvents = [TxEvent.txBegin, TxEvent.rollback] ∧
    countTx TxEvent.commit (Transaction db h).txEvents = 0 ∧
    (Transaction db h).rw = [RWEvent.header 500, RWEvent.write (capturedState h).buf] ∧
    visibleStatus (Transaction db h).rw = some 500 ∧
    visibleBody (Transaction db h).rw = (capturedState h).buf := by
  simp [Transaction, hb, hp, StatusWriter.Finish, StatusWriter.WriteHeader,
    capturedState_rw, visibleStatus, visibleBody, countTx]

/-- C2 amended witness: handler sets 200, writes one byte, then panics. -/
theorem transaction_panic_recovered_rollback_500_witness :
    (Transaction ⟨true, true⟩ ⟨[HAction.writeHeader 200, HAction.write [7]], true⟩).txEvents
      = [TxEvent.txBegin, TxEvent.rollback] ∧
    visibleStatus
      (Transaction ⟨true, true⟩ ⟨[HAction.writeHeader 200, HAction.write [7]], true⟩).rw
      = some 500 ∧
    visibleBody
      (Transaction ⟨true, true⟩ ⟨[HAction.writeHeader 200, HAction.write [7]], true⟩).rw
      = [7] := by
  have h := transaction_panic_recovered_rollback_500 ⟨true, true⟩
    ⟨[HAction.writeHeader 200, HAction.write [7]], true⟩ rfl rfl
  exact ⟨h.1, h.2.2.2.1, h.2.2.2.2⟩

/-- C3 counterexample: a handler that records nothing (status stays 0)
leads to a rollback and no commit attempt, refuting the claim that an unset
status is treated as success and committed. -/
theorem transaction_no_status_not_committed_cex :
    (Transaction ⟨true, true⟩ ⟨[], false⟩).txEvents = [TxEvent.txBegin, TxEvent.rollback] ∧
    countTx TxEvent.commit (Transaction ⟨true, true⟩ ⟨[], false⟩).txEvents = 0 := by decide

/-- C3 amended: when the handler returns normally with the captured status
still 0 (unset), the coordinator treats it like any non-2xx status — 0 is
outside the success range — so it rolls the unit of work back and never
attempts a commit; the flush then forwards only the (empty-status) body
write. -/
theorem transaction_no_status_rolls_back
    (db : DBBehavior) (h : Handler)
    (hb : db.beginOk = true) (hp : h.panics = false)
    (h0 : (capturedState h).status = 0) :
    (Transaction db h).txEvents = [TxEvent.txBegin, TxEvent.rollback] ∧
    countTx TxEvent.commit (Transaction db h).txEvents = 0 ∧
    (Transaction db h).rw = [RWEvent.write (capturedState h).buf] := by
  have hs : isHTTPStatusOk (capturedState h).status = false := by
    rw [h0]; decide
  simp [Transaction, hb, hp, hs, isHTTPStatusOk, StatusWriter.Finish, capturedState_rw,
    h0, countTx]

/-- C3 amended witness: the do-nothing handler. -/
theorem transaction_no_status_rolls_back_witness :
    (Transaction ⟨true, true⟩ ⟨[], false⟩).rw = [RWEvent.write []] ∧
    countTx TxEvent.commit (Transaction ⟨true, true⟩ ⟨[], false⟩).txEvents = 0 := by
  have h := transaction_no_status_rolls_back ⟨true, true⟩ ⟨[], false⟩ rfl rfl rfl
  exact ⟨h.2.2, h.2.1⟩

/-- C6: when begin fails, the handler is never invoked, no commit or
rollback is ever issued, and the client receives status 500 with an empty
body. -/
theorem transaction_begin_failure_no_handler_500
    (db : DBBehavior) (h : Handler) (hb : db.beginOk = false) :
    (Transaction db h).handlerInvocations = 0 ∧
    (Transaction db h).txEvents = [] ∧
    (Transaction db h).rw = [RWEvent.header 500, RWEvent.write []] ∧
    visibleStatus (Transaction db h).rw = some 500 ∧
    visibleBody (Transaction db h).rw = [] := by
  simp [Transaction, hb, StatusWriter.Finish, StatusWriter.WriteHeader, initialWriter,
    visibleStatus, visibleBody]

/-- C6 witness: begin fails against a handler that would have written. -/
theorem transaction_begin_failure_no_handler_500_witness :
    (Transaction ⟨false, true⟩ ⟨[HAction.write [1]], false⟩).handlerInvocations = 0 ∧
    (Transaction ⟨false, true⟩ ⟨[HAction.write [1]], false⟩).txEvents = [] ∧
    visibleStatus (Transaction ⟨false, true⟩ ⟨[HAction.write [1]], false⟩).rw = some 500 := by
  have h := transaction_begin_failure_no_handler_500 ⟨false, true⟩
    ⟨[HAction.write [1]], false⟩ rfl
  exact ⟨h.1, h.2.1, h.2.2.2.1⟩

/-- C7: calling `WriteHeader` on the capture repeatedly is last-call-wins,
forwards nothing to the underlying writer, and only the value recorded at
flush time is emitted by `Finish`. -/
theorem writeHeader_last_call_wins
    (st : Int) (buf : Bytes) (r : List RWEvent) (c1 c2 : Int) (hc : c2 ≠ 0) :
    (StatusWriter.WriteHeader (StatusWriter.WriteHeader ⟨st, buf, r⟩ c1) c2).status = c2 ∧
    (StatusWriter.WriteHeader ⟨st, buf, r⟩ c1).rw = r ∧
    (StatusWriter.WriteHeader (StatusWriter.WriteHeader ⟨st, buf, r⟩ c1) c2).rw = r ∧
    (StatusWriter.Finish
        (StatusWriter.WriteHeader (StatusWriter.WriteHeader ⟨st, buf, r⟩ c1) c2)).rw
      = r ++ [RWEvent.header c2, RWEvent.write buf] := by
  simp [StatusWriter.WriteHeader, StatusWriter.Finish, hc]

/-- C7 witness: record 503 then 200; the flush emits 200. -/
theorem writeHeader_last_call_wins_witness :
    (StatusWriter.WriteHeader (StatusWriter.WriteHeader ⟨0, [], []⟩ 503) 200).status = 200 ∧
    (StatusWriter.WriteHeader (⟨0, [], []⟩ : StatusWriter) 503).rw = [] ∧
    (StatusWriter.WriteHeader (StatusWriter.WriteHeader ⟨0, [], []⟩ 503) 200).rw = [] ∧
    (StatusWriter.Finish
        (StatusWriter.WriteHeader (StatusWriter.WriteHeader ⟨0, [], []⟩ 503) 200)).rw
      = [] ++ [RWEvent.header 200, RWEvent.write []] :=
  writeHeader_last_call_wins 0 [] [] 503 200 (by decide)

/-- C8 counterexample: finishing a capture whose status was never recorded
still issues a write call on the underlying writer — it is not a no-op. -/
theorem finish_unset_status_not_noop_cex :
    (StatusWriter.Finish ⟨0, [], []⟩).rw = [RWEvent.write []] ∧
    (StatusWriter.Finish ⟨0, [], []⟩).rw ≠ [] := by decide

/-- C8 amended: if a status was recorded, flush forwards the status and then
the buffered body, in that order; if no status was recorded, flush forwards
no status but still issues one body write of the buffered (possibly empty)
bytes; and neither `WriteHeader` nor `Write` reaches the underlying writer
before flush. -/
theorem finish_order_and_buffering
    (st : Int) (buf b : Bytes) (r : List RWEvent) (c : Int) :
    (st ≠ 0 →
      (StatusWriter.Finish ⟨st, buf, r⟩).rw = r ++ [RWEvent.header st, RWEvent.write buf]) ∧
    (st = 0 →
      (StatusWriter.Finish ⟨st, buf, r⟩).rw = r ++ [RWEvent.write buf]) ∧
    (StatusWriter.WriteHeader ⟨st, buf, r⟩ c).rw = r ∧
    (StatusWriter.Write ⟨st, buf, r⟩ b).rw = r := by
  refine ⟨fun hne => ?_, fun h0 => ?_, rfl, rfl⟩
  · simp [StatusWriter.Finish, hne]
  · simp [StatusWriter.Finish, h0]

/-- C8 amended witness: a recorded status 503 flushes header-then-body; an
unset status flushes only the body write. -/
theorem finish_order_and_buffering_witness :
    (StatusWriter.Finish ⟨503, [7], []⟩).rw = [] ++ [RWEvent.header 503, RWEvent.write [7]] ∧
    (StatusWriter.Finish ⟨0, [6], []⟩).rw = [] ++ [RWEvent.write [6]] :=
  ⟨(finish_order_and_buffering 503 [7] [] [] 0).1 (by decide),
   (finish_order_and_buffering 0 [6] [] [] 0).2.1 rfl⟩

/-- C9 counterexample: when commit fails after a success status, the
coordinator invokes both commit and rollback on the same unit of work —
two terminal operations, refuting "exactly one of commit or rollback". -/
theorem transaction_two_terminal_ops_cex :
    countTx TxEvent.commit
      (Transaction ⟨true, false⟩ ⟨[HAction.writeHeader 200], false⟩).txEvents = 1 ∧
    countTx TxEvent.rollback
      (Transaction ⟨true, false⟩ ⟨[HAction.writeHeader 200], false⟩).txEvents = 1 := by decide

/-- C9 amended: once a unit of work is begun, begin is issued exactly once,
commit at most once, rollback at most once, and at least one terminal
operation is issued; both terminal operations occur exactly on the
commit-failure path (a failed commit followed by a best-effort rollback) —
on every other exit path exactly one terminal operation is issued. -/
theorem transaction_terminal_ops
    (db : DBBehavior) (h : Handler) (hb : db.beginOk = true) :
    countTx TxEvent.txBegin (Transaction db h).txEvents = 1 ∧
    countTx TxEvent.commit (Transaction db h).txEvents ≤ 1 ∧
    countTx TxEvent.rollback (Transaction db h).txEvents ≤ 1 ∧
    1 ≤ countTx TxEvent.commit (Transaction db h).txEvents
        + countTx TxEvent.rollback (Transaction db h).txEvents ∧
    (countTx TxEvent.commit (Transaction db h).txEvents
        + countTx TxEvent.rollback (Transaction db h).txEvents = 2 ↔
      h.panics = false ∧ isHTTPStatusOk (capturedState h).status = true ∧
        db.commitOk = false) := by
  cases hp : h.panics <;>
    cases hs : isHTTPStatusOk (capturedState h).status <;>
      cases hc : db.commitOk <;>
        simp [Transaction, hb, hp, hs, hc, countTx]

/-- C9 amended witness: the success path issues begin once and exactly one
terminal operation. -/
theorem transaction_terminal_ops_witness :
    countTx TxEvent.txBegin
      (Transaction ⟨true, true⟩ ⟨[HAction.writeHeader 200], false⟩).txEvents = 1 ∧
    countTx TxEvent.commit
      (Transaction ⟨true, true⟩ ⟨[HAction.writeHeader 200], false⟩).txEvents ≤ 1 := by
  have h := transaction_terminal_ops ⟨true, true⟩ ⟨[HAction.writeHeader 200], false⟩ rfl
  exact ⟨h.1, h.2.1⟩

/-- C10: storing a transaction handle with `setTransaction` and reading it
back with `GetTransaction` returns exactly that handle; an unrelated key
layered on top does not disturb it (the private key is collision-free); and
on a context where the key was never bound, `GetTransaction` panics (the
failed type assertion, modelled as the error branch) instead of returning a
handle. -/
theorem getTransaction_roundtrip :
    (∀ (ctx : Ctx) (t : Nat), GetTransaction (setTransaction ctx t) = Except.ok t) ∧
    (∀ (ctx : Ctx) (t : Nat) (k : Nat) (v : CtxVal), k ≠ txKey →
      GetTransaction (Ctx.withValue (setTransaction ctx t) k v) = Except.ok t) ∧
    (∀ ctx : Ctx, ctx.value txKey = none →
      GetTransaction ctx = Except.error "panic: interface conversion: interface is nil") := by
  refine ⟨fun ctx t => ?_, fun ctx t k v hk => ?_, fun ctx hnone => ?_⟩
  · simp [GetTransaction, setTransaction, Ctx.value]
  · have hk2 : txKey ≠ k := fun e => hk e.symm
    simp [GetTransaction, setTransaction, Ctx.value, hk2]
  · simp [GetTransaction, hnone]

/-- C10 witness: handle 7 round-trips through the background context, also
under an unrelated key binding, and the bare background context panics. -/
theorem getTransaction_roundtrip_witness :
    GetTransaction (setTransaction Ctx.background 7) = Except.ok 7 ∧
    GetTransaction (Ctx.withValue (setTransaction Ctx.background 7) 1 (CtxVal.other 9))
      = Except.ok 7 ∧
    GetTransaction Ctx.background
      = Except.error "panic: interface conversion: interface is nil" :=
  ⟨getTransaction_roundtrip.1 Ctx.background 7,
   getTransaction_roundtrip.2.1 Ctx.background 7 1 (CtxVal.other 9) (by decide),
   getTransaction_roundtrip.2.2 Ctx.background rfl⟩

end GoHTTPMiddleware
